import Mathlib

/-!
Shallow embedding of the terminal UI orchestration layer of the
29thfloor-astro repository: the `<terminal-output>`, `<terminal-prompt>`,
`<terminal-menu>` web components and the `<terminal-tui>` orchestrator
(`src/components/terminal-tui.js` and the companion component files).

DOM-independent behaviour (log contents, history navigation, menu
selection, command dispatch, shortcut routing, drag clamping, session
storage) is modelled as pure state transformers; observable side effects
(log appends, mode changes, navigation requests) are recorded in an
emission trace.
-/

namespace TerminalTUI

/-! ## Output log (`<terminal-output>`, part_001)

`appendLine` escapes its text through `escapeHtml` (a DOM round trip
`div.textContent = text; div.innerHTML`), which serialises the text node:
`&` becomes `&amp;`, `<` becomes `&lt;`, `>` becomes `&gt;`; `append`
with a string assigns it to `innerHTML` unchanged, so it is parsed as
markup. -/

/-- Entry categories used for styling (`entry-system`, `entry-command`,
`entry-error`, `entry-success`); `plain` models an append with no type. -/
inductive Category where
  | system
  | command
  | error
  | success
  | plain
deriving DecidableEq, Repr

/-- One `.output-entry` div: the HTML content assigned to it and its
category class. -/
structure OutputEntry where
  content : String
  category : Category
deriving DecidableEq, Repr

/-- Serialisation of one character of a DOM text node
(`escapeHtml`: `div.textContent = text; return div.innerHTML`). -/
def escChar (c : Char) : List Char :=
  if c = '&' then "&amp;".data
  else if c = '<' then "&lt;".data
  else if c = '>' then "&gt;".data
  else [c]

def escList : List Char → List Char
  | [] => []
  | c :: cs => escChar c ++ escList cs

/-- `escapeHtml(text)` of `terminal-output`. -/
def escapeHtml (text : String) : String :=
  ⟨escList text.data⟩

/-- How an HTML parser decodes the character data of `escapeHtml`'s
output back into text: the three named entities it can emit. -/
def decodeEntities : List Char → List Char
  | [] => []
  | '&' :: 'a' :: 'm' :: 'p' :: ';' :: r => '&' :: decodeEntities r
  | '&' :: 'l' :: 't' :: ';' :: r => '<' :: decodeEntities r
  | '&' :: 'g' :: 't' :: ';' :: r => '>' :: decodeEntities r
  | c :: r => c :: decodeEntities r

/-- `append(content, {type})`: appends one entry whose innerHTML is the
given string, uninterpreted here, parsed as markup by the DOM. -/
def append (log : List OutputEntry) (content : String) (category : Category) :
    List OutputEntry :=
  log ++ [⟨content, category⟩]

/-- `appendLine(text, type)`: escapes and then appends. -/
def appendLine (log : List OutputEntry) (text : String) (category : Category) :
    List OutputEntry :=
  append log (escapeHtml text) category

/-- `clear()`: removes every entry. -/
def clearLog (_log : List OutputEntry) : List OutputEntry := []

theorem decodeEntities_escList (l : List Char) :
    decodeEntities (escList l) = l := by
  induction l with
  | nil => rfl
  | cons c cs ih =>
    by_cases ha : c = '&'
    · subst ha
      simp [escList, escChar, decodeEntities, ih]
    · by_cases hl : c = '<'
      · subst hl
        simp [escList, escChar, decodeEntities, ih]
      · by_cases hg : c = '>'
        · subst hg
          simp [escList, escChar, decodeEntities, ih]
        · have : escList (c :: cs) = c :: escList cs := by
            simp [escList, escChar, ha, hl, hg]
          rw [this]
          rw [decodeEntities.eq_def]
          split
          · simp_all
          · simp_all [escList]
          · simp_all [escList]
          · simp_all [escList]
          · simp_all [ih]

theorem escChar_no_lt (c : Char) : '<' ∉ escChar c := by
  by_cases ha : c = '&'
  · subst ha; decide
  · by_cases hl : c = '<'
    · subst hl; decide
    · by_cases hg : c = '>'
      · subst hg; decide
      · simp [escChar, ha, hl, hg]
        exact fun h => hl h.symm

theorem escList_no_lt (l : List Char) : '<' ∉ escList l := by
  induction l with
  | nil => simp [escList]
  | cons c cs ih =>
    simp only [escList, List.mem_append]
    rintro (h | h)
    · exact escChar_no_lt c h
    · exact ih h

/-! ## Command prompt (`<terminal-prompt>`, part_002)

State: the input's current value, `_commandHistory` and `_historyIndex`.
`_historyIndex` is a JS number that ranges over `-1 .. history.length`,
so it is modelled as an `Int`. -/

structure PromptState where
  value : String
  commandHistory : List String
  historyIndex : Int
deriving DecidableEq, Repr

namespace Prompt

/-- `clear()`: empties the input and resets `_historyIndex` to `-1`. -/
def clear (s : PromptState) : PromptState :=
  { s with value := "", historyIndex := -1 }

/-- `navigateHistory(direction)`. -/
def navigateHistory (s : PromptState) (direction : Int) : PromptState :=
  if s.commandHistory.length = 0 then s
  else
    let newIndex := s.historyIndex + direction
    if 0 ≤ newIndex ∧ newIndex < (s.commandHistory.length : Int) then
      { s with historyIndex := newIndex,
               value := s.commandHistory.getD newIndex.toNat "" }
    else if (s.commandHistory.length : Int) ≤ newIndex then
      { s with historyIndex := (s.commandHistory.length : Int), value := "" }
    else s

/-- `submit()`: trims the value; a non-empty command is pushed onto the
history, `_historyIndex` is set one past the end and a `prompt:submit`
event fires (the returned `Option`); `clear()` always runs last. -/
def submit (s : PromptState) : PromptState × Option String :=
  let command := s.value.trim
  if command ≠ "" then
    (clear { s with commandHistory := s.commandHistory ++ [command],
                    historyIndex := (s.commandHistory.length : Int) + 1 },
     some command)
  else
    (clear s, none)

/-- `ArrowUp` key: `navigateHistory(-1)`. -/
def arrowUp (s : PromptState) : PromptState := navigateHistory s (-1)

/-- `ArrowDown` key: `navigateHistory(1)`. -/
def arrowDown (s : PromptState) : PromptState := navigateHistory s 1

/-- `Escape` key: `clear()`. -/
def escape (s : PromptState) : PromptState := clear s

theorem navigateHistory_in_range (s : PromptState) (d : Int)
    (h1 : 0 ≤ s.historyIndex + d)
    (h2 : s.historyIndex + d < (s.commandHistory.length : Int)) :
    navigateHistory s d =
      ⟨s.commandHistory.getD (s.historyIndex + d).toNat "", s.commandHistory,
        s.historyIndex + d⟩ := by
  simp only [navigateHistory]
  rw [if_neg (by omega), if_pos ⟨h1, h2⟩]

theorem navigateHistory_past_end (s : PromptState) (d : Int)
    (hne : s.commandHistory.length ≠ 0)
    (h : (s.commandHistory.length : Int) ≤ s.historyIndex + d) :
    navigateHistory s d = ⟨"", s.commandHistory, (s.commandHistory.length : Int)⟩ := by
  simp only [navigateHistory]
  rw [if_neg hne, if_neg (by omega), if_pos h]

theorem navigateHistory_underflow (s : PromptState) (d : Int)
    (h : s.historyIndex + d < 0) :
    navigateHistory s d = s := by
  simp only [navigateHistory]
  by_cases hne : s.commandHistory.length = 0
  · rw [if_pos hne]
  · rw [if_neg hne, if_neg (by omega), if_neg (by omega)]

/-- Two prompt states built from history lookups at equal indices are
equal. -/
theorem mk_getD_eq (H : List String) (a b : ℕ) (h : a = b) :
    (⟨H.getD a "", H, (a : Int)⟩ : PromptState) = ⟨H.getD b "", H, (b : Int)⟩ := by
  rw [h]

/-- One ArrowUp press with the cursor at `1 ≤ i ≤ length` surfaces the
entry just below the cursor. -/
theorem arrowUp_lit (v : String) (H : List String) (i : ℕ)
    (h1 : 1 ≤ i) (h2 : i ≤ H.length) :
    arrowUp ⟨v, H, (i : Int)⟩ = ⟨H.getD (i - 1) "", H, ((i - 1 : ℕ) : Int)⟩ := by
  show navigateHistory ⟨v, H, (i : Int)⟩ (-1) = _
  rw [navigateHistory_in_range ⟨v, H, (i : Int)⟩ (-1)
    (by dsimp only; omega) (by dsimp only; omega)]
  dsimp only
  have e1 : ((i : Int) + (-1)).toNat = i - 1 := by omega
  have e2 : (i : Int) + (-1) = ((i - 1 : ℕ) : Int) := by omega
  rw [e1, e2]

/-- One ArrowDown press with the cursor at `i` with `i + 1 < length`
surfaces the entry just above the cursor. -/
theorem arrowDown_lit (v : String) (H : List String) (i : ℕ)
    (h2 : i + 1 < H.length) :
    arrowDown ⟨v, H, (i : Int)⟩ = ⟨H.getD (i + 1) "", H, ((i + 1 : ℕ) : Int)⟩ := by
  show navigateHistory ⟨v, H, (i : Int)⟩ 1 = _
  rw [navigateHistory_in_range ⟨v, H, (i : Int)⟩ 1
    (by dsimp only; omega) (by dsimp only; omega)]
  dsimp only
  have e1 : ((i : Int) + 1).toNat = i + 1 := by omega
  have e2 : (i : Int) + 1 = ((i + 1 : ℕ) : Int) := by omega
  rw [e1, e2]

/-- One ArrowDown press with the cursor at `length - 1 ≤ i` clears the
field and parks the cursor one past the end. -/
theorem arrowDown_past_lit (v : String) (H : List String) (i : ℕ)
    (hne : H.length ≠ 0) (h : H.length ≤ i + 1) :
    arrowDown ⟨v, H, (i : Int)⟩ = ⟨"", H, (H.length : Int)⟩ := by
  show navigateHistory ⟨v, H, (i : Int)⟩ 1 = _
  rw [navigateHistory_past_end ⟨v, H, (i : Int)⟩ 1
    (by dsimp only; omega) (by dsimp only; omega)]

/-- After `k` presses of ArrowUp (`1 ≤ k ≤ i ≤ length`) from cursor `i`,
the field shows the k-th entry below the starting cursor. -/
theorem arrowUp_iter_lit (H : List String) :
    ∀ (k : ℕ) (v : String) (i : ℕ), 1 ≤ k → k ≤ i → i ≤ H.length →
      arrowUp^[k] ⟨v, H, (i : Int)⟩ = ⟨H.getD (i - k) "", H, ((i - k : ℕ) : Int)⟩ := by
  intro k
  induction k with
  | zero => intro v i h1 _ _; exact absurd h1 (by decide)
  | succ k ih =>
    intro v i h1 h2 h3
    rcases Nat.eq_zero_or_pos k with rfl | hk
    · rw [Function.iterate_succ_apply, Function.iterate_zero_apply,
        arrowUp_lit v H i (by omega) h3]
    · rw [Function.iterate_succ_apply', ih v i hk (by omega) h3,
        arrowUp_lit _ H (i - k) (by omega) (by omega)]
      exact mk_getD_eq H _ _ (by omega)

/-- After `j < length` presses of ArrowDown from the oldest entry, the
field shows the j-th oldest entry. -/
theorem arrowDown_iter_lit (H : List String) :
    ∀ (j : ℕ), j < H.length →
      arrowDown^[j] ⟨H.getD 0 "", H, ((0 : ℕ) : Int)⟩ =
        ⟨H.getD j "", H, (j : Int)⟩ := by
  intro j
  induction j with
  | zero => intro _; rw [Function.iterate_zero_apply]
  | succ j ih =>
    intro hj
    rw [Function.iterate_succ_apply', ih (by omega), arrowDown_lit _ H j (by omega)]

end Prompt

/-- C5: from a prompt state with `N > 0` recorded history entries and the
cursor parked one past the end, `k ≤ N` Up presses surface the `k`-th most
recent entry (so `N` presses surface all `N` in reverse chronological
order); a further Up is a no-op; from the oldest entry, `j` Down presses
surface the `j`-th oldest entry, the `N`-th Down clears the field and parks
the cursor one past the end, from where Down is a no-op and Up returns the
newest entry. -/
theorem C5_prompt_history_navigation (s : PromptState) (N : ℕ)
    (hN : s.commandHistory.length = N) (hpos : 0 < N)
    (hidx : s.historyIndex = (N : Int)) :
    (∀ k, 1 ≤ k → k ≤ N →
      Prompt.arrowUp^[k] s =
        ⟨s.commandHistory.getD (N - k) "", s.commandHistory, ((N - k : ℕ) : Int)⟩) ∧
    Prompt.arrowUp (Prompt.arrowUp^[N] s) = Prompt.arrowUp^[N] s ∧
    (∀ j, j < N →
      Prompt.arrowDown^[j] (Prompt.arrowUp^[N] s) =
        ⟨s.commandHistory.getD j "", s.commandHistory, (j : Int)⟩) ∧
    Prompt.arrowDown^[N] (Prompt.arrowUp^[N] s) =
      ⟨"", s.commandHistory, (N : Int)⟩ ∧
    Prompt.arrowDown ⟨"", s.commandHistory, (N : Int)⟩ =
      ⟨"", s.commandHistory, (N : Int)⟩ ∧
    Prompt.arrowUp ⟨"", s.commandHistory, (N : Int)⟩ =
      ⟨s.commandHistory.getD (N - 1) "", s.commandHistory, ((N - 1 : ℕ) : Int)⟩ := by
  have hs : s = ⟨s.value, s.commandHistory, (N : Int)⟩ := by rw [← hidx]
  have hup : ∀ k, 1 ≤ k → k ≤ N →
      Prompt.arrowUp^[k] s =
        ⟨s.commandHistory.getD (N - k) "", s.commandHistory, ((N - k : ℕ) : Int)⟩ := by
    intro k h1 h2
    rw [hs]
    exact Prompt.arrowUp_iter_lit s.commandHistory k s.value N h1 h2 (by omega)
  have hbottom : Prompt.arrowUp^[N] s =
      ⟨s.commandHistory.getD 0 "", s.commandHistory, ((0 : ℕ) : Int)⟩ := by
    rw [hup N hpos le_rfl]
    exact Prompt.mk_getD_eq s.commandHistory _ _ (by omega)
  obtain ⟨M, rfl⟩ : ∃ M, N = M + 1 := ⟨N - 1, by omega⟩
  refine ⟨hup, ?_, ?_, ?_, ?_, ?_⟩
  · rw [hbottom]
    exact Prompt.navigateHistory_underflow _ (-1) (by dsimp only; omega)
  · intro j hj
    rw [hbottom]
    exact Prompt.arrowDown_iter_lit s.commandHistory j (by omega)
  · rw [Function.iterate_succ_apply', hbottom,
      Prompt.arrowDown_iter_lit s.commandHistory M (by omega),
      Prompt.arrowDown_past_lit (s.commandHistory.getD M "") s.commandHistory M
        (by omega) (by omega), hN]
  · rw [Prompt.arrowDown_past_lit "" s.commandHistory (M + 1) (by omega) (by omega), hN]
  · rw [Prompt.arrowUp_lit "" s.commandHistory (M + 1) (by omega) (by omega)]

/-- Witness for C5 at history `["alpha", "beta"]`, cursor 2. -/
theorem C5_prompt_history_navigation_witness :
    (⟨"", ["alpha", "beta"], (2 : Int)⟩ : PromptState).commandHistory.length = 2 ∧
    Prompt.arrowUp^[2] (⟨"", ["alpha", "beta"], (2 : Int)⟩ : PromptState) =
      ⟨"alpha", ["alpha", "beta"], 0⟩ := by
  refine ⟨rfl, ?_⟩
  have h := C5_prompt_history_navigation ⟨"", ["alpha", "beta"], (2 : Int)⟩ 2
    rfl (by decide) rfl
  exact (h.1 2 (by decide) (by decide)).trans (by decide)

/-- C10: after Escape clears the input, the history cursor is `-1`
(before the start of the history): the next ArrowUp leaves the state
unchanged (field stays empty), while the next ArrowDown recalls the
oldest recorded entry (index 0), not the newest. -/
theorem C10_escape_parks_cursor_before_history (s : PromptState)
    (hpos : 0 < s.commandHistory.length) :
    Prompt.escape s = ⟨"", s.commandHistory, -1⟩ ∧
    Prompt.arrowUp (Prompt.escape s) = Prompt.escape s ∧
    Prompt.arrowDown (Prompt.escape s) =
      ⟨s.commandHistory.getD 0 "", s.commandHistory, 0⟩ := by
  have he : Prompt.escape s = ⟨"", s.commandHistory, -1⟩ := rfl
  refine ⟨he, ?_, ?_⟩
  · rw [he]
    exact Prompt.navigateHistory_underflow _ (-1) (by dsimp only; omega)
  · rw [he]
    show Prompt.navigateHistory ⟨"", s.commandHistory, -1⟩ 1 = _
    rw [Prompt.navigateHistory_in_range ⟨"", s.commandHistory, -1⟩ 1
      (by dsimp only; omega) (by dsimp only; omega)]
    rfl

/-- Witness for C10 at history `["first", "second"]`. -/
theorem C10_escape_parks_cursor_before_history_witness :
    Prompt.arrowDown (Prompt.escape ⟨"xy", ["first", "second"], (1 : Int)⟩) =
      ⟨"first", ["first", "second"], 0⟩ :=
  (C10_escape_parks_cursor_before_history ⟨"xy", ["first", "second"], (1 : Int)⟩
    (by decide)).2.2

/-- C4: `appendLine` stores the text with markup-significant characters
escaped: the stored content decodes back to the original text (it renders
as literal text) and contains no `<`, so it can never be interpreted as
markup; `append` with a string stores it unchanged, so it is parsed as
markup. In particular `"<b>hi</b>"` is stored as
`"&lt;b&gt;hi&lt;/b&gt;"`. -/
theorem C4_appendLine_escapes_markup (log : List OutputEntry) (t : String)
    (cat : Category) :
    appendLine log t cat = log ++ [⟨escapeHtml t, cat⟩] ∧
    decodeEntities (escapeHtml t).data = t.data ∧
    '<' ∉ (escapeHtml t).data ∧
    append log t cat = log ++ [⟨t, cat⟩] ∧
    escapeHtml "<b>hi</b>" = "&lt;b&gt;hi&lt;/b&gt;" := by
  exact ⟨rfl, decodeEntities_escList t.data, escList_no_lt t.data, rfl, by decide⟩

/-! ## Selectable menu (`<terminal-menu>`, part_002)

State: `_items` and `_selectedIndex` (a JS number written by the
`selected` setter, modelled as `Int`). `menu:select` and `menu:confirm`
events are returned alongside the new state. -/

structure MenuItem where
  label : String
  path : String
deriving DecidableEq, Repr

structure MenuState where
  items : List MenuItem
  selectedIndex : Int
deriving DecidableEq, Repr

/-- Events dispatched by the menu. -/
inductive MenuEvent where
  | select (index : Int) (item : MenuItem)
  | confirm (index : Int) (item : MenuItem)
deriving DecidableEq, Repr

namespace Menu

/-- `this._items[i]` at an index that is in range whenever used. -/
def itemAt (s : MenuState) (i : Int) : MenuItem :=
  s.items.getD i.toNat ⟨"", ""⟩

/-- The `selected` setter. For an integer argument, `parseInt(val, 10) || 0`
is the argument itself (`parseInt(0) || 0 = 0`). A `menu:select` event
fires only when the index is accepted. -/
def setSelected (s : MenuState) (val : Int) : MenuState × List MenuEvent :=
  if 0 ≤ val ∧ val < (s.items.length : Int) ∧ val ≠ s.selectedIndex then
    ({ s with selectedIndex := val }, [.select val (itemAt s val)])
  else (s, [])

/-- `selectNext()`: saturates at the last item. -/
def selectNext (s : MenuState) : MenuState × List MenuEvent :=
  if s.selectedIndex < (s.items.length : Int) - 1 then
    setSelected s (s.selectedIndex + 1)
  else (s, [])

/-- `selectPrev()`: saturates at the first item. -/
def selectPrev (s : MenuState) : MenuState × List MenuEvent :=
  if 0 < s.selectedIndex then setSelected s (s.selectedIndex - 1)
  else (s, [])

/-- `confirm()`: dispatches `menu:confirm` for the current selection when
there are items; never changes the selection. -/
def confirm (s : MenuState) : MenuState × List MenuEvent :=
  if 0 < s.items.length then
    (s, [.confirm s.selectedIndex (itemAt s s.selectedIndex)])
  else (s, [])

/-- `handleKeydown`: ArrowUp/`k`, ArrowDown/`j`, Enter/Space, Home, End. -/
def handleKeydown (s : MenuState) (key : String) : MenuState × List MenuEvent :=
  if key = "ArrowUp" ∨ key = "k" then selectPrev s
  else if key = "ArrowDown" ∨ key = "j" then selectNext s
  else if key = "Enter" ∨ key = " " then confirm s
  else if key = "Home" then setSelected s 0
  else if key = "End" then setSelected s ((s.items.length : Int) - 1)
  else (s, [])

/-- Mouseover on a rendered item: sets the selection. -/
def hover (s : MenuState) (i : Int) : MenuState × List MenuEvent :=
  setSelected s i

/-- Click on a rendered item: sets the selection, then confirms. -/
def click (s : MenuState) (i : Int) : MenuState × List MenuEvent :=
  let (s1, ev1) := setSelected s i
  let (s2, ev2) := confirm s1
  (s2, ev1 ++ ev2)

/-- `parseItems()`: items from the attribute (parse failure falls back to
`[]`), selected index clamped into `[0, max 0 (length - 1)]`. -/
def parseItems (parsed : Option (List MenuItem)) (selectedAttr : Int) : MenuState :=
  let items := parsed.getD []
  { items := items,
    selectedIndex := min (max 0 selectedAttr) (max 0 ((items.length : Int) - 1)) }

/-- The menu's externally reachable operations. -/
inductive MenuOp where
  | set (v : Int)
  | key (k : String)
  | hover (i : Int)
  | click (i : Int)

def step (s : MenuState) : MenuOp → MenuState × List MenuEvent
  | .set v => setSelected s v
  | .key k => handleKeydown s k
  | .hover i => hover s i
  | .click i => click s i

def run (s : MenuState) (ops : List MenuOp) : MenuState :=
  ops.foldl (fun t op => (step t op).1) s

/-- The selection invariant: index within `[0, itemCount - 1]`. -/
def inRange (s : MenuState) : Prop :=
  0 ≤ s.selectedIndex ∧ s.selectedIndex < (s.items.length : Int)

instance (s : MenuState) : Decidable (inRange s) := by
  unfold inRange
  infer_instance

theorem setSelected_items (s : MenuState) (v : Int) :
    (setSelected s v).1.items = s.items := by
  unfold setSelected
  split <;> rfl

theorem setSelected_inRange (s : MenuState) (v : Int) (h : inRange s) :
    inRange (setSelected s v).1 := by
  unfold setSelected
  split
  · next hc => exact ⟨hc.1, hc.2.1⟩
  · exact h

theorem confirm_state (s : MenuState) : (confirm s).1 = s := by
  unfold confirm
  split <;> rfl

theorem step_inRange (s : MenuState) (op : MenuOp) (h : inRange s) :
    inRange (step s op).1 := by
  cases op with
  | set v => exact setSelected_inRange s v h
  | hover i => exact setSelected_inRange s i h
  | click i =>
    show inRange (click s i).1
    unfold click
    rw [confirm_state]
    exact setSelected_inRange s i h
  | key k =>
    show inRange (handleKeydown s k).1
    unfold handleKeydown selectPrev selectNext
    split
    · split
      · exact setSelected_inRange s _ h
      · exact h
    · split
      · split
        · exact setSelected_inRange s _ h
        · exact h
      · split
        · rw [confirm_state]; exact h
        · split
          · exact setSelected_inRange s _ h
          · split
            · exact setSelected_inRange s _ h
            · exact h

theorem run_inRange (s : MenuState) (ops : List MenuOp) (h : inRange s) :
    inRange (run s ops) := by
  induction ops generalizing s with
  | nil => exact h
  | cons op ops ih => exact ih _ (step_inRange s op h)

end Menu

/-- C8: with `itemCount > 0` items and an in-range selection, the
selection index stays in `[0, itemCount - 1]` under every sequence of
menu operations (setter calls, key presses, hovers, clicks), `parseItems`
establishes the invariant, and setting the selection to any integer
outside the range is a silent no-op: the state is unchanged and no event
is emitted. -/
theorem C8_menu_selection_in_range (s : MenuState)
    (hpos : 0 < s.items.length) (hinv : Menu.inRange s) :
    (∀ ops : List Menu.MenuOp, Menu.inRange (Menu.run s ops)) ∧
    (∀ parsed sel, Menu.inRange (Menu.parseItems (some (s.items)) sel) ∧
      (Menu.parseItems parsed sel).selectedIndex ≤
        max 0 (((parsed.getD []).length : Int) - 1)) ∧
    (∀ v : Int, ¬(0 ≤ v ∧ v < (s.items.length : Int)) →
      Menu.setSelected s v = (s, [])) := by
  refine ⟨fun ops => Menu.run_inRange s ops hinv, ?_, ?_⟩
  · intro parsed sel
    constructor
    · unfold Menu.parseItems Menu.inRange
      simp only [Option.getD_some]
      omega
    · unfold Menu.parseItems
      dsimp only
      omega
  · intro v hv
    unfold Menu.setSelected
    rw [if_neg]
    intro hc
    exact hv ⟨hc.1, hc.2.1⟩

/-- Witness for C8 on a two-item menu: out-of-range set is a no-op. -/
theorem C8_menu_selection_in_range_witness :
    Menu.setSelected ⟨[⟨"Home", "/"⟩, ⟨"Blog", "/blog"⟩], 1⟩ 5 =
      (⟨[⟨"Home", "/"⟩, ⟨"Blog", "/blog"⟩], 1⟩, []) :=
  (C8_menu_selection_in_range ⟨[⟨"Home", "/"⟩, ⟨"Blog", "/blog"⟩], 1⟩
    (by decide) (by decide)).2.2 5 (by decide)

/-! ## Session storage

`sessionStorage` as a string-keyed association list with the
`getItem` / `setItem` / `removeItem` operations the orchestrator uses. -/

abbrev SessionStorage := List (String × String)

def getItem : SessionStorage → String → Option String
  | [], _ => none
  | (k', v) :: rest, k => if k' = k then some v else getItem rest k

def setItem : SessionStorage → String → String → SessionStorage
  | [], k, v => [(k, v)]
  | (k', v') :: rest, k, v =>
    if k' = k then (k, v) :: rest else (k', v') :: setItem rest k v

def removeItem : SessionStorage → String → SessionStorage
  | [], _ => []
  | (k', v) :: rest, k =>
    if k' = k then removeItem rest k else (k', v) :: removeItem rest k

theorem getItem_removeItem_ne (st : SessionStorage) (k k' : String) (h : k' ≠ k) :
    getItem (removeItem st k') k = getItem st k := by
  induction st with
  | nil => rfl
  | cons p rest ih =>
    obtain ⟨pk, pv⟩ := p
    by_cases hp : pk = k'
    · subst hp
      rw [removeItem, if_pos rfl, ih, getItem, if_neg h]
    · rw [removeItem, if_neg hp, getItem, getItem]
      by_cases hk : pk = k
      · rw [if_pos hk, if_pos hk]
      · rw [if_neg hk, if_neg hk, ih]

theorem getItem_removeItem_self (st : SessionStorage) (k : String) :
    getItem (removeItem st k) k = none := by
  induction st with
  | nil => rfl
  | cons p rest ih =>
    obtain ⟨pk, pv⟩ := p
    by_cases hp : pk = k
    · rw [removeItem, if_pos hp, ih]
    · rw [removeItem, if_neg hp, getItem, if_neg hp, ih]

theorem getItem_setItem_self (st : SessionStorage) (k v : String) :
    getItem (setItem st k v) k = some v := by
  induction st with
  | nil => rw [setItem, getItem, if_pos rfl]
  | cons p rest ih =>
    obtain ⟨pk, pv⟩ := p
    by_cases hp : pk = k
    · rw [setItem, if_pos hp, getItem, if_pos rfl]
    · rw [setItem, if_neg hp, getItem, if_neg hp, ih]

theorem getItem_setItem_ne (st : SessionStorage) (k k' v : String) (h : k' ≠ k) :
    getItem (setItem st k' v) k = getItem st k := by
  induction st with
  | nil => simp only [setItem, getItem, if_neg h]
  | cons p rest ih =>
    obtain ⟨pk, pv⟩ := p
    by_cases hp : pk = k'
    · subst hp
      rw [setItem, if_pos rfl, getItem, getItem, if_neg h]
      by_cases hk : pk = k
      · exact absurd hk h
      · rw [if_neg hk]
    · rw [setItem, if_neg hp, getItem, getItem]
      by_cases hk : pk = k
      · rw [if_pos hk, if_pos hk]
      · rw [if_neg hk, if_neg hk, ih]

/-! ## Orchestrator (`<terminal-tui>`, terminal-tui.js)

`TUIState` plus the output log and the per-tab session storage. The
observable effects of a handler are returned as a list of `Action`s:
log appends, active-surface (mode) changes from `showMenu`/`hideMenu`,
and navigation requests (`window.location.href = path`). -/

structure OrchestratorState where
  menuVisible : Bool
  consoleHidden : Bool
  consoleHeight : ℚ
  isResizing : Bool
  output : List OutputEntry
  store : SessionStorage
deriving DecidableEq, Repr

inductive Action where
  | append (entry : OutputEntry)
  | modeSet (menuVisible : Bool)
  | navigate (path : String)
deriving DecidableEq, Repr

/-- JS `toLowerCase()`, characterwise. -/
def toLowerCase (s : String) : String := ⟨s.data.map Char.toLower⟩

/-- JS `trim()`: strips leading and trailing whitespace. -/
def trimString (s : String) : String :=
  ⟨((s.data.dropWhile Char.isWhitespace).reverse.dropWhile
      Char.isWhitespace).reverse⟩

namespace Orchestrator

/-- The constructor's initial `TUIState` fields (`_menuVisible = false`,
`_consoleHidden = false`, `_consoleHeight = 120`, `_isResizing = false`),
with an empty log and a given session store. -/
def initialState (store : SessionStorage) : OrchestratorState :=
  ⟨false, false, 120, false, [], store⟩

/-- `appendOutput(content, type)`: delegates to the output log's
`appendLine`, which escapes the content. -/
def appendOutput (st : OrchestratorState) (content : String) (category : Category) :
    OrchestratorState × List Action :=
  ({ st with output := appendLine st.output content category },
   [.append ⟨escapeHtml content, category⟩])

/-- Append a list of lines in order, concatenating their actions. -/
def appendAll (st : OrchestratorState) : List (String × Category) →
    OrchestratorState × List Action
  | [] => (st, [])
  | (c, t) :: rest =>
    let p1 := appendOutput st c t
    let p2 := appendAll p1.1 rest
    (p2.1, p1.2 ++ p2.2)

/-- `showMenu()`: no-op when already visible; otherwise the menu becomes
the active surface. -/
def showMenu (st : OrchestratorState) : OrchestratorState × List Action :=
  if st.menuVisible then (st, [])
  else ({ st with menuVisible := true }, [.modeSet true])

/-- `hideMenu()`: the prompt becomes the active surface again. -/
def hideMenu (st : OrchestratorState) : OrchestratorState × List Action :=
  ({ st with menuVisible := false }, [.modeSet false])

/-- `navigate(path)`: `saveSession()` (which only marks
`tui-session = active`) and then the navigation request. -/
def navigate (st : OrchestratorState) (path : String) :
    OrchestratorState × List Action :=
  ({ st with store := setItem st.store "tui-session" "active" }, [.navigate path])

/-- `showError(message)`. -/
def showError (st : OrchestratorState) (message : String) :
    OrchestratorState × List Action :=
  appendOutput st message .error

/-- `clearOutput()`: clears the log and removes the `tui-history` key. -/
def clearOutput (st : OrchestratorState) : OrchestratorState × List Action :=
  ({ st with output := clearLog st.output,
             store := removeItem st.store "tui-history" }, [])

/-- The ten fixed lines of `showHelp()`. -/
def helpLines : List String :=
  ["Available commands:",
   "  menu     - Show navigation menu",
   "  help     - Show this help message",
   "  clear    - Clear screen",
   "",
   "Direct navigation:",
   "  home, blog, projects, work, everyday, about, contact, archive",
   "",
   "Keyboard shortcuts:",
   "  [H]ome [B]log [W]ork [E]veryday [A]bout [C]ontact"]

def showHelp (st : OrchestratorState) : OrchestratorState × List Action :=
  appendAll st (helpLines.map fun l => (l, Category.system))

/-- The CommandTable: each keyword maps to a handler. -/
inductive Command where
  | menu
  | help
  | clear
  | nav (path : String)
deriving DecidableEq, Repr

/-- `this.commands[cmd]` lookup. -/
def commandLookup : String → Option Command
  | "menu" => some .menu
  | "help" => some .help
  | "clear" => some .clear
  | "home" => some (.nav "/")
  | "blog" => some (.nav "/blog")
  | "projects" => some (.nav "/projects")
  | "work" => some (.nav "/work")
  | "about" => some (.nav "/about")
  | "contact" => some (.nav "/contact")
  | "archive" => some (.nav "/archive")
  | "everyday" => some (.nav "/everyday")
  | _ => none

def runCommand (st : OrchestratorState) : Command → OrchestratorState × List Action
  | .menu => showMenu st
  | .help => showHelp st
  | .clear => clearOutput st
  | .nav p => navigate st p

/-- `executeCommand(command)`: lowercases and trims, looks the keyword up;
on a miss, the error entry then the hint entry. -/
def executeCommand (st : OrchestratorState) (command : String) :
    OrchestratorState × List Action :=
  match commandLookup (trimString (toLowerCase command)) with
  | some c => runCommand st c
  | none =>
    let p1 := showError st ("Unknown command: " ++ command)
    let p2 := appendOutput p1.1 "Type \"help\" for available commands." Category.system
    (p2.1, p1.2 ++ p2.2)

/-- The `prompt:submit` handler: echoes the command, then executes it. -/
def promptSubmitHandler (st : OrchestratorState) (command : String) :
    OrchestratorState × List Action :=
  let p1 := appendOutput st command .command
  let p2 := executeCommand p1.1 command
  (p2.1, p1.2 ++ p2.2)

/-- The `menu:confirm` handler: `hideMenu()`, the status entry, then
`navigate(item.path)`. -/
def menuConfirmHandler (st : OrchestratorState) (item : MenuItem) :
    OrchestratorState × List Action :=
  let p1 := hideMenu st
  let p2 := appendOutput p1.1 ("Navigating to " ++ item.label ++ "...") .system
  let p3 := navigate p2.1 item.path
  (p3.1, p1.2 ++ p2.2 ++ p3.2)

/-- The Escape handler: only acts when the menu is visible. -/
def escapeKeyHandler (st : OrchestratorState) (key : String) :
    OrchestratorState × List Action :=
  if key = "Escape" ∧ st.menuVisible then
    let p1 := hideMenu st
    let p2 := appendOutput p1.1 "Menu cancelled." .system
    (p2.1, p1.2 ++ p2.2)
  else (st, [])

/-- The ShortcutTable. -/
def shortcuts : String → Option String
  | "h" => some "/"
  | "b" => some "/blog"
  | "w" => some "/work"
  | "e" => some "/everyday"
  | "a" => some "/about"
  | "c" => some "/contact"
  | _ => none

/-- The fields of a keydown event the shortcut handler inspects:
`fromTextEntry` is whether `composedPath()` contains an INPUT, TEXTAREA
or contentEditable element. -/
structure KeyEvent where
  key : String
  ctrlKey : Bool
  metaKey : Bool
  altKey : Bool
  fromTextEntry : Bool
deriving DecidableEq, Repr

/-- The document-level keydown shortcut handler. -/
def shortcutHandler (st : OrchestratorState) (e : KeyEvent) :
    OrchestratorState × List Action :=
  if e.fromTextEntry then (st, [])
  else if e.ctrlKey || e.metaKey || e.altKey then (st, [])
  else if st.menuVisible then (st, [])
  else
    match shortcuts (toLowerCase e.key) with
    | some navPath => navigate st navPath
    | none => (st, [])

/-- `mousedown` on the resize handle. -/
def resizeMouseDown (st : OrchestratorState) : OrchestratorState :=
  { st with isResizing := true }

/-- `mousemove` during a drag: recomputes the tray height from the
pointer position, clamped between `minHeight = 48` and half the viewport
height. Coordinates are modelled as rationals. -/
def resizeMouseMove (st : OrchestratorState)
    (clientY containerBottom innerHeight : ℚ) : OrchestratorState :=
  if !st.isResizing then st
  else
    let newHeight := containerBottom - clientY
    let minHeight : ℚ := 48
    let maxHeight := innerHeight * (1 / 2)
    let clampedHeight := max minHeight (min maxHeight newHeight)
    { st with consoleHeight := clampedHeight }

/-- `mouseup`: release clears the dragging flag. -/
def resizeMouseUp (st : OrchestratorState) : OrchestratorState :=
  if st.isResizing then { st with isResizing := false } else st

/-- `loadSession()` is a stub in the source: it always returns null. -/
def loadSession : Option (List OutputEntry) := none

/-- `showWelcome()`: the four fixed lines. -/
def showWelcome (st : OrchestratorState) (pageTitle : String) :
    OrchestratorState × List Action :=
  appendAll st
    [("Welcome to 29thfloor.com", .system),
     ("Type \"menu\" to navigate or \"help\" for commands.", .system),
     ("", .system),
     ("Connected to " ++ pageTitle, .system)]

/-- `!sessionStorage.getItem('tui-visited')`: null and the empty string
are falsy. -/
def isFirstVisit (st : OrchestratorState) : Bool :=
  match getItem st.store "tui-visited" with
  | none => true
  | some v => v = ""

/-- `showInitialContent()`: restore a saved session if there is one,
else welcome on first visit (and set the flag), else the single
connected line. -/
def showInitialContent (st : OrchestratorState) (pageTitle : String) :
    OrchestratorState × List Action :=
  if 0 < (loadSession.getD []).length then
    let p1 := appendAll st ((loadSession.getD []).map fun e => (e.content, e.category))
    let p2 := appendOutput p1.1 ("Connected to " ++ pageTitle) .system
    (p2.1, p1.2 ++ p2.2)
  else if isFirstVisit st then
    let p1 := showWelcome st pageTitle
    ({ p1.1 with store := setItem p1.1.store "tui-visited" "true" }, p1.2)
  else
    appendOutput st ("Connected to " ++ pageTitle) .system

end Orchestrator

/-- C1 counterexample: submitting the unknown command `"xyz"` in
`PROMPT_ACTIVE` appends three entries (the command echo, then the error,
then the hint), not two, and the first appended entry has category
`command`, not `error`. -/
theorem C1_counterexample_three_entries :
    (Orchestrator.promptSubmitHandler (Orchestrator.initialState []) "xyz").1.output.length = 3 ∧
    ¬((Orchestrator.promptSubmitHandler (Orchestrator.initialState []) "xyz").1.output.length = 2) ∧
    (Orchestrator.promptSubmitHandler (Orchestrator.initialState []) "xyz").1.output.map
        OutputEntry.category = [.command, .error, .system] := by
  decide

/-- C1 (amended): handling the submission of text that is not a command
keyword (after lowercasing and trimming) in `PROMPT_ACTIVE` appends
exactly three entries — the echo of category `command`, then one of
category `error` with text `"Unknown command: <text>"`, then the
`system` hint — and leaves mode, `consoleHidden`, `consoleHeight`,
`dragging` and the session store unchanged. -/
theorem C1_unknown_command_echo_error_hint (st : OrchestratorState) (text : String)
    (_hmode : st.menuVisible = false)
    (hmiss : Orchestrator.commandLookup
      (trimString (toLowerCase text)) = none) :
    (Orchestrator.promptSubmitHandler st text).1.output =
      st.output ++
        [⟨escapeHtml text, .command⟩,
         ⟨escapeHtml ("Unknown command: " ++ text), .error⟩,
         ⟨escapeHtml "Type \"help\" for available commands.", .system⟩] ∧
    (Orchestrator.promptSubmitHandler st text).2 =
      [.append ⟨escapeHtml text, .command⟩,
       .append ⟨escapeHtml ("Unknown command: " ++ text), .error⟩,
       .append ⟨escapeHtml "Type \"help\" for available commands.", .system⟩] ∧
    (Orchestrator.promptSubmitHandler st text).1.menuVisible = st.menuVisible ∧
    (Orchestrator.promptSubmitHandler st text).1.consoleHidden = st.consoleHidden ∧
    (Orchestrator.promptSubmitHandler st text).1.consoleHeight = st.consoleHeight ∧
    (Orchestrator.promptSubmitHandler st text).1.isResizing = st.isResizing ∧
    (Orchestrator.promptSubmitHandler st text).1.store = st.store := by
  simp [Orchestrator.promptSubmitHandler, Orchestrator.executeCommand,
    Orchestrator.showError, Orchestrator.appendOutput, appendLine, append, hmiss]

/-- Witness for C1 (amended) at input `"xyz"` from the initial state. -/
theorem C1_unknown_command_echo_error_hint_witness :
    Orchestrator.commandLookup
      (trimString (toLowerCase "xyz")) = none ∧
    (Orchestrator.promptSubmitHandler (Orchestrator.initialState []) "xyz").1.output =
      [⟨"xyz", .command⟩, ⟨"Unknown command: xyz", .error⟩,
       ⟨"Type \"help\" for available commands.", .system⟩] := by
  refine ⟨by decide, ?_⟩
  exact (C1_unknown_command_echo_error_hint (Orchestrator.initialState []) "xyz"
    rfl (by decide)).1.trans (by decide)

/-- C2 counterexample: after `clear` runs in a tab whose session flag
`tui-visited` is set, the flag is still set, and the next activation logs
one connected line, not the first-visit welcome sequence. -/
theorem C2_counterexample_flag_survives_clear :
    getItem ((Orchestrator.clearOutput
        (Orchestrator.initialState [("tui-visited", "true")])).1.store) "tui-visited" =
      some "true" ∧
    (Orchestrator.showInitialContent
        (Orchestrator.clearOutput
          (Orchestrator.initialState [("tui-visited", "true")])).1 "HOME").1.output.length
      = 1 := by
  decide

/-- C2 (amended): `clear` empties the Output Log and removes the (never
written) saved-session key `tui-history`; it does not clear the
`tui-visited` welcome flag, so a subsequent activation in the same tab
still logs the single connected line instead of behaving as a first
visit. -/
theorem C2_clear_output_and_saved_history (st : OrchestratorState)
    (v : String) (hv : v ≠ "")
    (hflag : getItem st.store "tui-visited" = some v) :
    (Orchestrator.clearOutput st).1.output = [] ∧
    getItem (Orchestrator.clearOutput st).1.store "tui-history" = none ∧
    getItem (Orchestrator.clearOutput st).1.store "tui-visited" =
      getItem st.store "tui-visited" ∧
    (∀ pageTitle,
      (Orchestrator.showInitialContent (Orchestrator.clearOutput st).1 pageTitle).1.output =
        [⟨escapeHtml ("Connected to " ++ pageTitle), .system⟩]) := by
  have hne : "tui-history" ≠ "tui-visited" := by decide
  have hget : getItem (Orchestrator.clearOutput st).1.store "tui-visited" =
      getItem st.store "tui-visited" :=
    getItem_removeItem_ne st.store "tui-visited" "tui-history" hne
  refine ⟨rfl, getItem_removeItem_self st.store "tui-history", hget, ?_⟩
  intro pageTitle
  have hfv : Orchestrator.isFirstVisit (Orchestrator.clearOutput st).1 = false := by
    unfold Orchestrator.isFirstVisit
    rw [hget, hflag]
    simp [hv]
  unfold Orchestrator.showInitialContent
  rw [if_neg (by simp [Orchestrator.loadSession]), if_neg (by simp [hfv])]
  simp [Orchestrator.appendOutput, appendLine, append, Orchestrator.clearOutput, clearLog]

/-- Witness for C2 (amended) on a store with the flag set. -/
theorem C2_clear_output_and_saved_history_witness :
    ("true" : String) ≠ "" ∧
    (Orchestrator.showInitialContent
        (Orchestrator.clearOutput
          (Orchestrator.initialState [("tui-visited", "true")])).1 "BLOG").1.output =
      [⟨"Connected to BLOG", .system⟩] := by
  refine ⟨by decide, ?_⟩
  exact ((C2_clear_output_and_saved_history
    (Orchestrator.initialState [("tui-visited", "true")]) "true" (by decide)
    (by decide)).2.2.2 "BLOG").trans (by decide)

/-- C3 counterexample: on a menu confirm, the return to `PROMPT_ACTIVE`
(the `hideMenu` mode change) is emitted before the status entry, not
after it as the claim orders the three effects. -/
theorem C3_counterexample_mode_change_first :
    (Orchestrator.menuConfirmHandler ⟨true, false, 120, false, [], []⟩
        ⟨"Work", "/work"⟩).2 =
      [.modeSet false, .append ⟨"Navigating to Work...", .system⟩,
       .navigate "/work"] ∧
    (Orchestrator.menuConfirmHandler ⟨true, false, 120, false, [], []⟩
        ⟨"Work", "/work"⟩).2 ≠
      [.append ⟨"Navigating to Work...", .system⟩, .modeSet false,
       .navigate "/work"] := by
  decide

/-- C3 (amended): for every confirm event received while in
`MENU_ACTIVE`, the Orchestrator returns to `PROMPT_ACTIVE`, then emits
the status entry `"Navigating to <label>..."`, then issues the
navigation request for the item's target, in that order; in particular
the navigation request is never emitted before the status entry. -/
theorem C3_menu_confirm_status_before_navigate (st : OrchestratorState)
    (item : MenuItem) (_hmode : st.menuVisible = true) :
    (Orchestrator.menuConfirmHandler st item).2 =
      [.modeSet false,
       .append ⟨escapeHtml ("Navigating to " ++ item.label ++ "..."), .system⟩,
       .navigate item.path] ∧
    (Orchestrator.menuConfirmHandler st item).1.menuVisible = false ∧
    (Orchestrator.menuConfirmHandler st item).1.output =
      st.output ++
        [⟨escapeHtml ("Navigating to " ++ item.label ++ "..."), .system⟩] := by
  simp [Orchestrator.menuConfirmHandler, Orchestrator.hideMenu,
    Orchestrator.appendOutput, Orchestrator.navigate, appendLine, append]

/-- Witness for C3 (amended) confirming the `Work` item. -/
theorem C3_menu_confirm_status_before_navigate_witness :
    (⟨true, false, 120, false, [], []⟩ : OrchestratorState).menuVisible = true ∧
    (Orchestrator.menuConfirmHandler ⟨true, false, 120, false, [], []⟩
        ⟨"Work", "/work"⟩).2.getLast? = some (.navigate "/work") := by
  refine ⟨rfl, ?_⟩
  rw [(C3_menu_confirm_status_before_navigate ⟨true, false, 120, false, [], []⟩
    ⟨"Work", "/work"⟩ rfl).1]
  decide

/-- C6: a single-letter key press originating from a text-entry surface,
or with a modifier held, or while in `MENU_ACTIVE`, produces no
navigation request and no state change; otherwise a key whose lowercased
letter is in the ShortcutTable produces exactly one navigation request
for the mapped path and appends no Output Log entry. -/
theorem C6_shortcut_routing (st : OrchestratorState)
    (e : Orchestrator.KeyEvent) (_hlen : e.key.length = 1) :
    ((e.fromTextEntry = true ∨ e.ctrlKey = true ∨ e.metaKey = true ∨
        e.altKey = true ∨ st.menuVisible = true) →
      Orchestrator.shortcutHandler st e = (st, [])) ∧
    (e.fromTextEntry = false → e.ctrlKey = false → e.metaKey = false →
      e.altKey = false → st.menuVisible = false →
      ∀ p, Orchestrator.shortcuts (toLowerCase e.key) = some p →
        (Orchestrator.shortcutHandler st e).2 = [.navigate p] ∧
        (Orchestrator.shortcutHandler st e).1.output = st.output) := by
  constructor
  · intro h
    cases hf : e.fromTextEntry <;> cases hc : e.ctrlKey <;>
      cases hm : e.metaKey <;> cases ha : e.altKey <;>
      cases hv : st.menuVisible <;>
      simp_all [Orchestrator.shortcutHandler]
  · intro h1 h2 h3 h4 h5 p hp
    simp [Orchestrator.shortcutHandler, h1, h2, h3, h4, h5, hp,
      Orchestrator.navigate]

/-- Witness for C6: the plain `b` key navigates to `/blog`. -/
theorem C6_shortcut_routing_witness :
    ("b" : String).length = 1 ∧
    (Orchestrator.shortcutHandler (Orchestrator.initialState [])
        ⟨"b", false, false, false, false⟩).2 = [.navigate "/blog"] := by
  refine ⟨rfl, ?_⟩
  exact ((C6_shortcut_routing (Orchestrator.initialState [])
    ⟨"b", false, false, false, false⟩ rfl).2 rfl rfl rfl rfl rfl "/blog"
    (by decide)).1

/-- C7 counterexample: with a viewport of height 0 the claimed interval
`[48, 0.5 × viewportHeight]` is not respected: the computed height is 48,
which exceeds `0.5 × 0`. -/
theorem C7_counterexample_small_viewport :
    (Orchestrator.resizeMouseMove ⟨false, false, 120, true, [], []⟩
        100 50 0).consoleHeight = 48 ∧
    ¬((Orchestrator.resizeMouseMove ⟨false, false, 120, true, [], []⟩
        100 50 0).consoleHeight ≤ 0 * (1 / 2 : ℚ)) := by
  constructor <;> simp [Orchestrator.resizeMouseMove, min_def, max_def] <;> norm_num

/-- C7 (amended): whenever `minHeight = 48` does not exceed half the
viewport height, every pointer position processed during a drag yields a
console tray height within `[48, 0.5 × viewportHeight]`. -/
theorem C7_resize_height_clamped (st : OrchestratorState)
    (clientY containerBottom innerHeight : ℚ)
    (hres : st.isResizing = true)
    (hvp : (48 : ℚ) ≤ innerHeight * (1 / 2)) :
    (48 : ℚ) ≤ (Orchestrator.resizeMouseMove st clientY containerBottom
        innerHeight).consoleHeight ∧
    (Orchestrator.resizeMouseMove st clientY containerBottom
        innerHeight).consoleHeight ≤ innerHeight * (1 / 2) := by
  have hmove : (Orchestrator.resizeMouseMove st clientY containerBottom
        innerHeight).consoleHeight =
      max 48 (min (innerHeight * (1 / 2)) (containerBottom - clientY)) := by
    simp [Orchestrator.resizeMouseMove, hres]
  rw [hmove]
  exact ⟨le_max_left _ _, max_le hvp (min_le_left _ _)⟩

/-- Witness for C7 (amended) with a 400-high viewport. -/
theorem C7_resize_height_clamped_witness :
    (⟨false, false, 120, true, [], []⟩ : OrchestratorState).isResizing = true ∧
    (48 : ℚ) ≤ 400 * (1 / 2) ∧
    (Orchestrator.resizeMouseMove ⟨false, false, 120, true, [], []⟩
        10 500 400).consoleHeight ≤ 400 * (1 / 2) := by
  refine ⟨rfl, by norm_num, ?_⟩
  exact (C7_resize_height_clamped ⟨false, false, 120, true, [], []⟩
    10 500 400 rfl (by norm_num)).2

/-- C9: the session-restore path is a stub that always yields nothing;
on activation with the `tui-visited` flag unset the Orchestrator appends
exactly the 4 welcome lines (all of category `system`) and then sets the
flag; on activation with the flag set (a non-empty stored value) it
appends exactly one `"Connected to <page identifier>"` line. -/
theorem C9_first_visit_welcome (st : OrchestratorState) (pageTitle : String) :
    Orchestrator.loadSession = none ∧
    (getItem st.store "tui-visited" = none →
      (Orchestrator.showInitialContent st pageTitle).1.output =
        st.output ++
          [⟨escapeHtml "Welcome to 29thfloor.com", .system⟩,
           ⟨escapeHtml "Type \"menu\" to navigate or \"help\" for commands.", .system⟩,
           ⟨escapeHtml "", .system⟩,
           ⟨escapeHtml ("Connected to " ++ pageTitle), .system⟩] ∧
      getItem (Orchestrator.showInitialContent st pageTitle).1.store "tui-visited" =
        some "true") ∧
    (∀ v, v ≠ "" → getItem st.store "tui-visited" = some v →
      (Orchestrator.showInitialContent st pageTitle).1.output =
        st.output ++ [⟨escapeHtml ("Connected to " ++ pageTitle), .system⟩] ∧
      (Orchestrator.showInitialContent st pageTitle).2 =
        [.append ⟨escapeHtml ("Connected to " ++ pageTitle), .system⟩]) := by
  refine ⟨rfl, ?_, ?_⟩
  · intro hflag
    have hfv : Orchestrator.isFirstVisit st = true := by
      unfold Orchestrator.isFirstVisit
      rw [hflag]
    unfold Orchestrator.showInitialContent
    rw [if_neg (by simp [Orchestrator.loadSession]), if_pos (by simp [hfv])]
    constructor
    · simp [Orchestrator.showWelcome, Orchestrator.appendAll,
        Orchestrator.appendOutput, appendLine, append]
    · have hstore : (Orchestrator.showWelcome st pageTitle).1.store = st.store := by
        simp [Orchestrator.showWelcome, Orchestrator.appendAll,
          Orchestrator.appendOutput]
      dsimp only
      rw [hstore]
      exact getItem_setItem_self st.store "tui-visited" "true"
  · intro v hv hflag
    have hfv : Orchestrator.isFirstVisit st = false := by
      unfold Orchestrator.isFirstVisit
      rw [hflag]
      simp [hv]
    unfold Orchestrator.showInitialContent
    rw [if_neg (by simp [Orchestrator.loadSession]), if_neg (by simp [hfv])]
    constructor
    · simp [Orchestrator.appendOutput, appendLine, append]
    · simp [Orchestrator.appendOutput]

/-- Witness for C9: first activation on an empty store, and second
activation after the flag was set. -/
theorem C9_first_visit_welcome_witness :
    getItem (Orchestrator.initialState []).store "tui-visited" = none ∧
    (Orchestrator.showInitialContent (Orchestrator.initialState []) "HOME").1.output =
      [⟨"Welcome to 29thfloor.com", .system⟩,
       ⟨"Type \"menu\" to navigate or \"help\" for commands.", .system⟩,
       ⟨"", .system⟩,
       ⟨"Connected to HOME", .system⟩] := by
  refine ⟨rfl, ?_⟩
  exact ((C9_first_visit_welcome (Orchestrator.initialState []) "HOME").2.1
    rfl).1.trans (by decide)

end TerminalTUI
